import Mathlib

/-!
Verification of the URL phishing detector core
(`backend/app/ml/features.py`, `backend/app/ml/model.py`).

The Python code is shallowly embedded: strings are `String` (manipulated
through their underlying `List Char`, mirroring Python string operations),
floating point feature values are embedded as `ℚ` (every value of the
embedding is finite by construction, matching the code, which never
produces an infinity from finite inputs), dictionaries keyed by feature
name are ordered association lists (Python dicts preserve insertion
order), and every network / library collaborator (WHOIS, DNS resolution,
the trained classifier, page fetch, geolocation, randomness) is an
explicit oracle argument, since the core only consumes their results.

The Shannon entropy feature `char_entropy` calls the transcendental
`math.log2`; its numeric value is irrational in general and is not
inspected by any claim, so the embedding passes the entropy function as
an explicit parameter `ent : String → ℚ` and all theorems hold for every
such function.
-/

namespace UrlPhishing

/-- Python `str.lower` (ASCII case folding, which is all the code relies on). -/
def lowerStr (s : String) : String := ⟨s.data.map Char.toLower⟩

/-- Classic Wagner-Fischer row update, inner loop.
`pPrev` is `prevRow[j-1]`, the head of `pRow` is `prevRow[j]`, and
`cPrev` is `curRow[j-1]`. -/
def levRowGo (a : Char) : List Char → Nat → List Nat → Nat → List Nat
  | [], _, _, _ => []
  | _ :: _, _, [], _ => []
  | b :: bs, pPrev, pj :: pRest, cPrev =>
    let cj := if a = b then pPrev else 1 + min pPrev (min pj cPrev)
    cj :: levRowGo a bs pj pRest cj

/-- Compute the next Wagner-Fischer row for source character `a`. -/
def levRowNext (a : Char) (bs : List Char) (row : List Nat) : List Nat :=
  match row with
  | [] => []
  | p0 :: pRest => (p0 + 1) :: levRowGo a bs p0 pRest (p0 + 1)

/-- `Levenshtein.distance` from the `python-Levenshtein` library: the
standard unit-cost edit distance, computed by dynamic programming. -/
def levenshtein (s t : List Char) : Nat :=
  (s.foldl (fun row a => levRowNext a t row) (List.range (t.length + 1))).getLastD 0

/-- `WHITELIST` from `model.py`: trusted domains that should never be flagged. -/
def WHITELIST : List String := [
  "google.com", "www.google.com", "google.co.uk", "google.ca", "google.com.au",
  "google.de", "google.fr", "google.it", "google.es", "google.co.in",
  "google.co.jp", "google.com.br",
  "bing.com", "www.bing.com",
  "duckduckgo.com", "www.duckduckgo.com",
  "yahoo.com", "www.yahoo.com", "yahoo.co.jp",
  "github.com", "www.github.com", "github.io",
  "microsoft.com", "www.microsoft.com", "live.com", "office.com", "azure.com",
  "apple.com", "www.apple.com", "icloud.com",
  "facebook.com", "www.facebook.com", "fb.com", "messenger.com",
  "twitter.com", "x.com", "t.co",
  "linkedin.com", "www.linkedin.com",
  "instagram.com", "www.instagram.com",
  "youtube.com", "www.youtube.com", "youtu.be",
  "whatsapp.com", "www.whatsapp.com",
  "netflix.com", "www.netflix.com",
  "dropbox.com", "www.dropbox.com",
  "adobe.com", "www.adobe.com",
  "amazon.com", "www.amazon.com", "amazon.co.uk", "amazon.de", "amazon.fr",
  "amazon.it", "amazon.es", "amazon.ca", "amazon.in", "amazon.co.jp",
  "amazon.com.br", "amazon.com.mx", "amazon.com.au", "aws.amazon.com",
  "media-amazon.com", "ssl-images-amazon.com",
  "ebay.com", "www.ebay.com", "ebay.co.uk", "ebay.de",
  "walmart.com", "www.walmart.com",
  "target.com", "www.target.com",
  "bestbuy.com", "www.bestbuy.com",
  "aliexpress.com", "www.aliexpress.com",
  "etsy.com", "www.etsy.com",
  "paypal.com", "www.paypal.com",
  "stripe.com", "www.stripe.com",
  "chase.com", "www.chase.com",
  "wellsfargo.com", "www.wellsfargo.com",
  "bankofamerica.com", "www.bankofamerica.com",
  "americanexpress.com", "www.americanexpress.com",
  "wikipedia.org", "www.wikipedia.org",
  "nytimes.com", "www.nytimes.com",
  "cnn.com", "www.cnn.com",
  "bbc.co.uk", "www.bbc.co.uk", "bbc.com",
  "reddit.com", "www.reddit.com",
  "stackoverflow.com", "www.stackoverflow.com",
  "medium.com", "www.medium.com",
  "localhost", "127.0.0.1"]

/-- `TARGET_BRANDS` from `model.py`: brands often impersonated, with their
legitimate domains, in the insertion (= iteration) order of the Python dict. -/
def TARGET_BRANDS : List (String × List String) := [
  ("google", ["google.com", "gmail.com", "google.co.uk", "google.de", "google.fr",
    "google.it", "google.es", "google.ca", "google.com.au", "google.co.in",
    "google.co.jp", "google.com.br"]),
  ("microsoft", ["microsoft.com", "office.com", "live.com", "azure.com",
    "outlook.com", "hotmail.com", "windows.com"]),
  ("apple", ["apple.com", "icloud.com", "itunes.com"]),
  ("amazon", ["amazon.com", "amazon.co.uk", "amazon.de", "amazon.fr", "amazon.it",
    "amazon.es", "amazon.ca", "amazon.in", "amazon.co.jp", "amazon.com.br",
    "amazon.com.mx", "amazon.com.au", "aws.amazon.com"]),
  ("paypal", ["paypal.com", "paypal.me"]),
  ("netflix", ["netflix.com"]),
  ("facebook", ["facebook.com", "fb.com", "messenger.com"]),
  ("instagram", ["instagram.com"]),
  ("linkedin", ["linkedin.com"]),
  ("twitter", ["twitter.com", "x.com", "t.co"]),
  ("dropbox", ["dropbox.com"]),
  ("adobe", ["adobe.com"]),
  ("chase", ["chase.com"]),
  ("wellsfargo", ["wellsfargo.com"]),
  ("bankofamerica", ["bankofamerica.com"]),
  ("ebay", ["ebay.com", "ebay.co.uk", "ebay.de"])]

/-- The whitelist membership test of `PhishingDetector.predict`
(lines 172-180 of `model.py`): the lowercased host is trusted when it
equals a whitelist entry exactly or ends with `"." + entry` for some entry. -/
def isTrusted (domain : String) : Bool :=
  let d := lowerStr domain
  WHITELIST.contains d || WHITELIST.any (fun t => ("." ++ t).data.isSuffixOf d.data)

/-- Python `domain.split('.')[0]`: the first DNS label. -/
def firstLabel (s : String) : String := ⟨s.data.takeWhile (fun c => c != '.')⟩

/-- Python substring containment `needle in hay`: some suffix of `hay`
starts with `needle`. -/
def containsSub (needle : List Char) : List Char → Bool
  | [] => needle.isEmpty
  | c :: rest => needle.isPrefixOf (c :: rest) || containsSub needle rest

/-- The typosquatting condition of `_check_brand_impersonation`
(line 347 of `model.py`): `dist > 0 and dist <= 2 and len(domain_base) > 4`. -/
def typoMatch (domainBase legBase : String) : Prop :=
  0 < levenshtein domainBase.data legBase.data ∧
    levenshtein domainBase.data legBase.data ≤ 2 ∧ 4 < domainBase.length

instance (a b : String) : Decidable (typoMatch a b) := by
  unfold typoMatch; infer_instance

/-- The brand loop of `_check_brand_impersonation` (lines 329-348 of
`model.py`): skip a brand whose legitimate domains contain the candidate;
otherwise flag on brand-token containment, or on a typosquatting match
against any of the brand's legitimate domains; first matching brand wins. -/
def scanBrands (d : String) : List (String × List String) → Option String
  | [] => none
  | (brand, legs) :: rest =>
    if d ∈ legs then scanBrands d rest
    else if containsSub brand.data d.data then some brand
    else if ∃ leg ∈ legs, typoMatch (firstLabel d) (firstLabel leg) then some brand
    else scanBrands d rest

/-- Python `domain[4:] if domain.startswith("www.") else domain`. -/
def stripWWW (s : String) : String :=
  if "www.".data.isPrefixOf s.data then ⟨s.data.drop 4⟩ else s

/-- `_check_brand_impersonation` of `model.py` at the domain level (the
function first extracts `urlparse(url).netloc`; the URL-level wrapper is
defined below): lowercase, strip a leading `www.`, return `none` for
whitelisted domains, then scan the brand table. -/
def check_brand_impersonation (domain : String) : Option String :=
  let d := stripWWW (lowerStr domain)
  if d ∈ WHITELIST then none
  else scanBrands d TARGET_BRANDS

/-- Result of Python `urllib.parse.urlparse` (the components the detector
reads; `params` is never used by the code). -/
structure ParsedUrl where
  scheme : String
  netloc : String
  path : String
  query : String
  fragment : String
deriving DecidableEq, Repr

/-- Characters allowed in a URL scheme after the initial letter. -/
def isSchemeChar (c : Char) : Bool :=
  c.isAlpha || c.isDigit || c == '+' || c == '-' || c == '.'

/-- Split a character list at the first occurrence of `c`; `none` when `c`
does not occur. -/
def splitFirst (c : Char) : List Char → Option (List Char × List Char)
  | [] => none
  | a :: rest =>
    if a = c then some ([], rest)
    else match splitFirst c rest with
      | some (x, y) => some (a :: x, y)
      | none => none

/-- Python `s.split(c)`: split at every occurrence of `c` (the result is
never empty; splitting the empty string gives `[[]]`). -/
def splitAllOn (c : Char) : List Char → List (List Char)
  | [] => [[]]
  | a :: rest =>
    let r := splitAllOn c rest
    if a = c then [] :: r
    else match r with
      | h :: t => (a :: h) :: t
      | [] => [[a]]

instance {ε α : Type} [DecidableEq ε] [DecidableEq α] : DecidableEq (Except ε α) := fun a b =>
  match a, b with
  | Except.ok x, Except.ok y =>
    if h : x = y then Decidable.isTrue (h ▸ rfl)
    else Decidable.isFalse (fun hh => h (Except.ok.inj hh))
  | Except.error x, Except.error y =>
    if h : x = y then Decidable.isTrue (h ▸ rfl)
    else Decidable.isFalse (fun hh => h (Except.error.inj hh))
  | Except.ok _, Except.error _ => Decidable.isFalse Except.noConfusion
  | Except.error _, Except.ok _ => Decidable.isFalse Except.noConfusion

/-- `urllib.parse.urlparse`, embedded as far as the detector exercises it:
split off a scheme (a leading letter followed by letters, digits, `+`,
`-`, `.`, up to a colon, lowercased), a network location after `//`
(delimited by `/`, `?` or `#`), then fragment and query.  Like the Python
function it rejects a netloc with an unmatched square bracket by raising
`ValueError("Invalid IPv6 URL")`, embedded as the `Except.error` case. -/
def urlparse (url : String) : Except String ParsedUrl :=
  let u := url.data
  let schemeRest : List Char × List Char :=
    match splitFirst ':' u with
    | some (c0 :: cs, post) =>
      if c0.isAlpha && (c0 :: cs).all isSchemeChar then
        ((c0 :: cs).map Char.toLower, post)
      else ([], u)
    | _ => ([], u)
  let notDelim : Char → Bool := fun c => !(c == '/' || c == '?' || c == '#')
  let netlocRest : List Char × List Char :=
    if ['/', '/'].isPrefixOf schemeRest.2 then
      let r := schemeRest.2.drop 2
      (r.takeWhile notDelim, r.dropWhile notDelim)
    else ([], schemeRest.2)
  let netloc := netlocRest.1
  if (netloc.contains '[' && !netloc.contains ']') ||
      (netloc.contains ']' && !netloc.contains '[') then
    Except.error "Invalid IPv6 URL"
  else
    let restFragment : List Char × List Char :=
      match splitFirst '#' netlocRest.2 with
      | some (a, b) => (a, b)
      | none => (netlocRest.2, [])
    let pathQuery : List Char × List Char :=
      match splitFirst '?' restFragment.1 with
      | some (a, b) => (a, b)
      | none => (restFragment.1, [])
    Except.ok ⟨⟨schemeRest.1⟩, ⟨netloc⟩, ⟨pathQuery.1⟩, ⟨pathQuery.2⟩, ⟨restFragment.2⟩⟩

/-- `FeatureExtractor.SUSPICIOUS_KEYWORDS` of `features.py`. -/
def SUSPICIOUS_KEYWORDS : List String := [
  "login", "signin", "account", "verify", "update", "confirm",
  "secure", "banking", "paypal", "ebay", "amazon", "apple",
  "microsoft", "google", "password", "credential", "suspend"]

/-- `FeatureExtractor.URL_SHORTENERS` of `features.py`. -/
def URL_SHORTENERS : List String := [
  "bit.ly", "goo.gl", "tinyurl.com", "t.co", "ow.ly",
  "buff.ly", "is.gd", "cli.gs", "tiny.cc"]

/-- The canonical ordered feature-name list of `FeatureExtractor.__init__`. -/
def featureNames : List String := [
  "url_length", "domain_dots", "hyphen_count", "path_depth",
  "query_param_count", "digit_ratio", "has_ip_address",
  "char_entropy", "suspicious_keywords", "is_shortened",
  "domain_age_days", "registration_length_years", "has_https",
  "valid_ssl", "cert_age_days", "subdomain_count",
  "high_risk_country", "as_reputation_score",
  "form_count", "has_password_field", "typosquatting_score",
  "gsb_threat_type", "vt_positives", "in_phishing_list", "ip_blocklisted"]

/-- `FeatureExtractor._digit_ratio`: digits divided by total characters,
0 for the empty string (Python `isdigit` restricted to ASCII digits,
which is all the detector's URL strings contain). -/
def digit_ratio (url : String) : ℚ :=
  if url.data.length = 0 then 0
  else (url.data.countP Char.isDigit : ℚ) / (url.data.length : ℚ)

/-- Nondeterministic match of the regex `\d{1,3}` at the head of a list:
all remainders after consuming one, two or three digits (in the
backtracking order longest first, though only emptiness matters). -/
def matchDigits13 (l : List Char) : List (List Char) :=
  match l with
  | c1 :: rest1 =>
    if c1.isDigit then
      match rest1 with
      | c2 :: rest2 =>
        if c2.isDigit then
          match rest2 with
          | c3 :: rest3 => if c3.isDigit then [rest3, rest2, rest1] else [rest2, rest1]
          | [] => [rest2, rest1]
        else [rest1]
      | [] => [rest1]
    else []
  | [] => []

/-- Match `\.\d{1,3}` at the head of a list. -/
def matchDotDigits (l : List Char) : List (List Char) :=
  match l with
  | '.' :: rest => matchDigits13 rest
  | _ => []

/-- Match the IPv4 regex `\d{1,3}\.\d{1,3}\.\d{1,3}\.\d{1,3}` at the head. -/
def matchIPv4At (l : List Char) : Bool :=
  (matchDigits13 l).any fun r1 =>
    (matchDotDigits r1).any fun r2 =>
      (matchDotDigits r2).any fun r3 =>
        !(matchDotDigits r3).isEmpty

/-- Run a head-anchored matcher at every suffix (regex search). -/
def anySuffixMatch (p : List Char → Bool) : List Char → Bool
  | [] => p []
  | c :: rest => p (c :: rest) || anySuffixMatch p rest

/-- Character class `[0-9a-fA-F:]` of the simplified IPv6 regex. -/
def isHexColon (c : Char) : Bool :=
  c.isDigit || (97 ≤ c.toNat && c.toNat ≤ 102) || (65 ≤ c.toNat && c.toNat ≤ 70) || c == ':'

/-- `FeatureExtractor._has_ip_address`: `re.search` of the IPv4 pattern,
or of the simplified IPv6 pattern `[0-9a-fA-F:]{10,}` (ten or more
consecutive class characters somewhere in the host). -/
def has_ip_address (domain : String) : Bool :=
  anySuffixMatch matchIPv4At domain.data ||
    anySuffixMatch (fun s => decide (10 ≤ (s.takeWhile isHexColon).length)) domain.data

/-- `FeatureExtractor._count_suspicious_keywords`: how many keywords occur
in the lowercased URL. -/
def count_suspicious_keywords (url : String) : Nat :=
  SUSPICIOUS_KEYWORDS.countP (fun kw => containsSub kw.data (lowerStr url).data)

/-- `FeatureExtractor._is_shortened`: some shortener domain occurs in the
lowercased host. -/
def is_shortened (domain : String) : Bool :=
  URL_SHORTENERS.any (fun sh => containsSub sh.data (lowerStr domain).data)

/-- Number of query parameters as `len(parse_qs(query))` computes it:
split on `&`, keep the pairs with an `=` and a nonempty value
(`parse_qs` drops blank values by default), count distinct names
(percent-decoding is omitted; no claim depends on it). -/
def parseQsCount (query : String) : Nat :=
  (((splitAllOn '&' query.data).filterMap fun part =>
      match splitFirst '=' part with
      | some (n, v) => if v.isEmpty then none else some n
      | none => none).dedup).length

/-- `FeatureExtractor._extract_lexical`: the ten string-only features, in
insertion order. -/
def extract_lexical (ent : String → ℚ) (url : String) (p : ParsedUrl) :
    List (String × ℚ) :=
  [("url_length", (url.data.length : ℚ)),
   ("domain_dots", (p.netloc.data.count '.' : ℚ)),
   ("hyphen_count", (url.data.count '-' : ℚ)),
   ("path_depth", (((splitAllOn '/' p.path.data).filter (fun seg => !seg.isEmpty)).length : ℚ)),
   ("query_param_count", (parseQsCount p.query : ℚ)),
   ("digit_ratio", digit_ratio url),
   ("has_ip_address", if has_ip_address p.netloc then 1 else 0),
   ("char_entropy", ent p.netloc),
   ("suspicious_keywords", (count_suspicious_keywords url : ℚ)),
   ("is_shortened", if is_shortened p.netloc then 1 else 0)]

/-- Section `whois` of an enrichment record. -/
structure WhoisData where
  domain_age_days : Option ℚ := none
  registration_length_years : Option ℚ := none

/-- Section `ssl` of an enrichment record. -/
structure SslData where
  has_https : Option ℚ := none
  valid_ssl : Option ℚ := none
  cert_age_days : Option ℚ := none

/-- Section `dns` of an enrichment record. -/
structure DnsData where
  subdomain_count : Option ℚ := none

/-- Section `geo` of an enrichment record. -/
structure GeoData where
  high_risk_country : Option ℚ := none
  as_reputation_score : Option ℚ := none

/-- Section `content` of an enrichment record. -/
structure ContentData where
  form_count : Option ℚ := none
  has_password_field : Option ℚ := none
  typosquatting_score : Option ℚ := none

/-- Section `google_safe_browsing` of an enrichment record. -/
structure GsbData where
  threat_type_code : Option ℚ := none

/-- Section `virustotal` of an enrichment record. -/
structure VtData where
  positives : Option ℚ := none

/-- Section `blocklists` of an enrichment record. -/
structure BlocklistData where
  in_phishing_list : Option ℚ := none
  ip_blocklisted : Option ℚ := none

/-- A nested enrichment record; every section and every field may be
absent, mirroring the `dict.get(..., default)` accesses of the code. -/
structure Enrichment where
  whois : Option WhoisData := none
  ssl : Option SslData := none
  dns : Option DnsData := none
  geo : Option GeoData := none
  content : Option ContentData := none
  google_safe_browsing : Option GsbData := none
  virustotal : Option VtData := none
  blocklists : Option BlocklistData := none

/-- Python `enrichment.get(section, \x7b\x7d).get(field, deflt)`. -/
def getField (sec : Option α) (f : α → Option ℚ) (deflt : ℚ) : ℚ :=
  (sec.bind f).getD deflt

/-- `FeatureExtractor._extract_enriched`: the fifteen enriched features in
insertion order; every default is 0 except `as_reputation_score` (0.5). -/
def extract_enriched (e : Enrichment) : List (String × ℚ) :=
  [("domain_age_days", getField e.whois WhoisData.domain_age_days 0),
   ("registration_length_years", getField e.whois WhoisData.registration_length_years 0),
   ("has_https", getField e.ssl SslData.has_https 0),
   ("valid_ssl", getField e.ssl SslData.valid_ssl 0),
   ("cert_age_days", getField e.ssl SslData.cert_age_days 0),
   ("subdomain_count", getField e.dns DnsData.subdomain_count 0),
   ("high_risk_country", getField e.geo GeoData.high_risk_country 0),
   ("as_reputation_score", getField e.geo GeoData.as_reputation_score 0.5),
   ("form_count", getField e.content ContentData.form_count 0),
   ("has_password_field", getField e.content ContentData.has_password_field 0),
   ("typosquatting_score", getField e.content ContentData.typosquatting_score 0),
   ("gsb_threat_type", getField e.google_safe_browsing GsbData.threat_type_code 0),
   ("vt_positives", getField e.virustotal VtData.positives 0),
   ("in_phishing_list", getField e.blocklists BlocklistData.in_phishing_list 0),
   ("ip_blocklisted", getField e.blocklists BlocklistData.ip_blocklisted 0)]

/-- `FeatureExtractor.extract_all`: parse the URL, compute the lexical
features, then either the enriched features (when an enrichment record is
supplied; a missing record — Python `None` or the falsy empty dict —
defaults every enriched feature to 0.0); any parse exception is caught
and yields the all-zero vector.  The function is total: it never fails. -/
def extract_all (ent : String → ℚ) (url : String) (enr : Option Enrichment) :
    List (String × ℚ) :=
  match urlparse url with
  | Except.error _ => featureNames.map (fun n => (n, (0 : ℚ)))
  | Except.ok p =>
    extract_lexical ent url p ++
      match enr with
      | some e => extract_enriched e
      | none => (featureNames.drop 10).map (fun n => (n, (0 : ℚ)))

/-- Entropy instantiation used by concrete witnesses (any function works). -/
def entZero : String → ℚ := fun _ => 0

/-- The three classification verdicts, ordered by severity
benign < suspicious < malicious. -/
inductive Verdict
  | benign
  | suspicious
  | malicious
deriving DecidableEq, Repr

/-- Severity rank of a verdict. -/
def Verdict.sev : Verdict → Nat
  | .benign => 0
  | .suspicious => 1
  | .malicious => 2

/-- One entry of a `top_features` explanation list. -/
structure Contribution where
  name : String
  value : ℚ
  contribution : ℚ
deriving DecidableEq, Repr

/-- State threaded through the heuristic escalation pass of
`PhishingDetector.predict`: current verdict, confidence, and the
explanation list (most recently prepended entry first). -/
abbrev EscState := Verdict × ℚ × List Contribution

/-- Domain-age heuristic (lines 245-254 of `model.py`): a known age below
30 days upgrades benign to suspicious (confidence 0.65) or suspicious to
malicious (confidence `min(confidence + 0.2, 0.99)`), prepending a
`newly_registered_domain` explanation; a malicious verdict is untouched. -/
def newDomainStep (age : Option Int) (s : EscState) : EscState :=
  match age with
  | none => s
  | some a =>
    if a < 30 then
      match s with
      | (Verdict.benign, _, tf) =>
        (Verdict.suspicious, 0.65, ⟨"newly_registered_domain", (a : ℚ), 0.5⟩ :: tf)
      | (Verdict.suspicious, conf, tf) =>
        (Verdict.malicious, min (conf + 0.2) 0.99, ⟨"newly_registered_domain", (a : ℚ), 0.8⟩ :: tf)
      | (Verdict.malicious, conf, tf) => (Verdict.malicious, conf, tf)
    else s

/-- Brand-impersonation heuristic (lines 257-261 of `model.py`): a flagged
brand unconditionally forces malicious with confidence 0.95 and prepends
an `impersonates_<brand>` explanation of contribution 0.9. -/
def brandStep (brand : Option String) (s : EscState) : EscState :=
  match brand with
  | some b => (Verdict.malicious, 0.95, ⟨"impersonates_" ++ b, 1, 0.9⟩ :: s.2.2)
  | none => s

/-- Invalid-DNS heuristic (lines 264-268 of `model.py`): an explicitly
false DNS flag forces malicious with confidence 0.9 and prepends an
`invalid_dns` explanation of contribution 0.8. -/
def dnsStep (dnsValid : Option Bool) (s : EscState) : EscState :=
  if dnsValid = some false then
    (Verdict.malicious, 0.9, ⟨"invalid_dns", 1, 0.8⟩ :: s.2.2)
  else s

/-- Content-analysis heuristic (lines 271-282 of `model.py`): only runs
when the fetch capability exists and the verdict is not already
malicious; a content score of at least 2 forces malicious with confidence
`max(confidence, 0.9)`, a score of exactly 1 forces suspicious with
confidence `max(confidence, 0.7)`, prepending a `suspicious_content`
explanation; a score of 0 changes nothing. -/
def contentStep (avail : Bool) (score : Nat) (s : EscState) : EscState :=
  if avail ∧ s.1 ≠ Verdict.malicious then
    if 0 < score then
      if 2 ≤ score then
        (Verdict.malicious, max s.2.1 0.9, ⟨"suspicious_content", (score : ℚ), 0.7⟩ :: s.2.2)
      else
        (Verdict.suspicious, max s.2.1 0.7, ⟨"suspicious_content", (score : ℚ), 0.5⟩ :: s.2.2)
    else s
  else s

/-- The fixed-order heuristic escalation pass of `PhishingDetector.predict`:
new-domain, then brand impersonation, then invalid DNS, then content
analysis. -/
def escalationPass (age : Option Int) (brand : Option String) (dnsValid : Option Bool)
    (contentAvail : Bool) (contentScore : Nat) (s : EscState) : EscState :=
  contentStep contentAvail contentScore (dnsStep dnsValid (brandStep brand (newDomainStep age s)))

/-- Why a `dns.resolver.resolve` call raised: either the record does not
exist (NXDOMAIN / no answer) or the lookup mechanism itself failed (for
`_check_dns` treat both identically. -/
inductive DnsLookupError
  | noRecord
  | networkFailure
deriving DecidableEq, Repr

/-- `PhishingDetector._check_dns`: parse the URL (a parse failure reaches
the outer handler, which returns `True`); then try the A record and the
MX record, where a successful resolve returns `True`; if both resolve
calls raise — whatever the reason, since the inner bare `except:` clauses
swallow network failures too — the function returns `False`. -/
def check_dns (resolveA resolveMX : Except DnsLookupError Unit) (url : String) : Bool :=
  match urlparse url with
  | Except.error _ => true
  | Except.ok _ =>
    match resolveA with
    | Except.ok _ => true
    | Except.error _ =>
      match resolveMX with
      | Except.ok _ => true
      | Except.error _ => false

/-- `_check_brand_impersonation` as called with a URL: extract the netloc
(any parse exception is caught and yields `None`). -/
def check_brand_impersonation_url (url : String) : Option String :=
  match urlparse url with
  | Except.ok p => check_brand_impersonation p.netloc
  | Except.error _ => none

/-- `settings.MODEL_VERSION` from `config.py`. -/
def MODEL_VERSION : String := "v1.0.0"

/-- Feature access `features[name]` of `_mock_predict` (the callers always
pass the full 25-name vector, so the `getD 0` default is never exercised
there). -/
def lookupFeature (features : List (String × ℚ)) (name : String) : ℚ :=
  (features.lookup name).getD 0

/-- The risk score of `PhishingDetector._mock_predict` (lines 446-450). -/
def mock_score (features : List (String × ℚ)) : Nat :=
  (if lookupFeature features "suspicious_keywords" > 0 then 2 else 0) +
  (if lookupFeature features "is_shortened" > 0 then 1 else 0) +
  (if lookupFeature features "has_ip_address" > 0 then 3 else 0) +
  (if lookupFeature features "url_length" > 75 then 1 else 0) +
  (if lookupFeature features "domain_dots" > 3 then 1 else 0)

/-- Verdict and confidence of `_mock_predict` (lines 455-463); `jitter` is
the `random.random()` draw in `[0, 1)`. -/
def mock_verdict_confidence (score : Nat) (jitter : ℚ) : Verdict × ℚ :=
  if 2 ≤ score then (Verdict.malicious, min (0.6 + (score : ℚ) * 0.1) 0.99)
  else if 1 ≤ score then (Verdict.suspicious, 0.65)
  else (Verdict.benign, 0.85 + jitter * 0.1)

/-- Explanations of `_mock_predict` (lines 466-475): every feature with a
positive value, contribution `0.5 * value`, sorted by contribution
descending (stably, like Python `list.sort`), truncated to five. -/
def mock_top_features (features : List (String × ℚ)) : List Contribution :=
  (((features.filter (fun fp => 0 < fp.2)).map
      (fun fp => (⟨fp.1, fp.2, fp.2 * 0.5⟩ : Contribution))).mergeSort
    (fun a b => b.contribution ≤ a.contribution)).take 5

/-- The `additional_info` dictionary attached to a prediction.  The two
code paths populate different key subsets; absent keys are `none`. -/
structure AdditionalInfo where
  is_whitelisted : Bool := false
  domain : Option String := none
  domain_age_days : Option Int := none
  dns_valid : Option Bool := none
  is_https : Option Bool := none
  impersonated_brand : Option String := none
  server_location : Option String := none
deriving Repr

/-- The dictionary returned by `PhishingDetector.predict`. -/
structure PredictOut where
  verdict : Verdict
  confidence : ℚ
  model_version : String
  top_features : List Contribution
  all_features : List (String × ℚ)
  additional_info : AdditionalInfo
deriving Repr

/-- External collaborators of one classification, embedded as oracles:
library availability flags, the loaded classifier and its outputs, the
WHOIS / DNS / geolocation / content-fetch results, and the randomness
draw of the mock scorer. -/
structure Oracles where
  whoisAvailable : Bool
  dnsAvailable : Bool
  levenshteinAvailable : Bool
  contentAnalysisAvailable : Bool
  mlLoaded : Bool
  mlRaises : Bool
  mlPrediction : Bool
  mlConfidence : ℚ
  mlTopFeatures : List Contribution
  domainAgeDays : Option Int
  resolveA : Except DnsLookupError Unit
  resolveMX : Except DnsLookupError Unit
  contentScore : Nat
  serverLocation : String
  jitter : ℚ

/-- `PhishingDetector._mock_predict` (without the score recomputation
already split out above): heuristic verdict, `-mock` version tag, the
unchanged feature vector, and the supplied diagnostics. -/
def mock_predict (features : List (String × ℚ)) (ai : AdditionalInfo) (jitter : ℚ) :
    PredictOut :=
  let vc := mock_verdict_confidence (mock_score features) jitter
  { verdict := vc.1, confidence := vc.2, model_version := MODEL_VERSION ++ "-mock",
    top_features := mock_top_features features, all_features := features,
    additional_info := ai }

/-- The non-whitelisted part of `PhishingDetector.predict` (lines 208-296):
extract features; gather diagnostics (a second parse failure empties
`additional_info`, disabling every heuristic); with a loaded classifier
that does not raise, map its binary class to a verdict, run the
escalation pass, and return; otherwise fall back to the mock scorer. -/
def predictMain (o : Oracles) (ent : String → ℚ) (url : String)
    (enr : Option Enrichment) : PredictOut :=
  let features := extract_all ent url enr
  let ai : AdditionalInfo :=
    match urlparse url with
    | Except.ok _ =>
      { domain_age_days := if o.whoisAvailable then o.domainAgeDays else none,
        dns_valid := if o.dnsAvailable then some (check_dns o.resolveA o.resolveMX url) else none,
        is_https := some ("https".data.isPrefixOf url.data),
        impersonated_brand := if o.levenshteinAvailable then check_brand_impersonation_url url else none,
        server_location := some o.serverLocation }
    | Except.error _ => {}
  if o.mlLoaded = true ∧ o.mlRaises = false then
    let base : EscState :=
      (if o.mlPrediction then Verdict.malicious else Verdict.benign,
       o.mlConfidence, o.mlTopFeatures)
    let esc := escalationPass ai.domain_age_days ai.impersonated_brand ai.dns_valid
      o.contentAnalysisAvailable o.contentScore base
    { verdict := esc.1, confidence := esc.2.1, model_version := MODEL_VERSION,
      top_features := esc.2.2, all_features := features, additional_info := ai }
  else mock_predict features ai o.jitter

/-- Whether `predict` takes the whitelist short circuit for this URL (the
`try` around the whitelist check turns a parse failure into a fall
through to the main path). -/
def whitelistShortCircuit (url : String) : Bool :=
  match urlparse url with
  | Except.ok p => isTrusted p.netloc
  | Except.error _ => false

/-- `PhishingDetector.predict` (lines 167-296): whitelist short circuit —
benign, confidence 1.0, empty explanations, EMPTY `all_features`, and
best-effort diagnostics — otherwise the main path. -/
def predict (o : Oracles) (ent : String → ℚ) (url : String)
    (enr : Option Enrichment) : PredictOut :=
  match urlparse url with
  | Except.ok p =>
    if isTrusted p.netloc then
      { verdict := Verdict.benign, confidence := 1, model_version := MODEL_VERSION,
        top_features := [], all_features := [],
        additional_info :=
          { is_whitelisted := true, domain := some (lowerStr p.netloc),
            server_location := some o.serverLocation,
            domain_age_days := if o.whoisAvailable then o.domainAgeDays else none,
            dns_valid := if o.dnsAvailable then some (check_dns o.resolveA o.resolveMX url) else none,
            is_https := some ("https".data.isPrefixOf url.data) } }
    else predictMain o ent url enr
  | Except.error _ => predictMain o ent url enr

/-- Concrete oracle bundle for witnesses and counterexamples. -/
def sampleOracles : Oracles :=
  { whoisAvailable := false, dnsAvailable := false, levenshteinAvailable := false,
    contentAnalysisAvailable := false, mlLoaded := false, mlRaises := false,
    mlPrediction := false, mlConfidence := 0, mlTopFeatures := [],
    domainAgeDays := none, resolveA := Except.error DnsLookupError.noRecord,
    resolveMX := Except.error DnsLookupError.noRecord, contentScore := 0,
    serverLocation := "Unknown", jitter := 0 }

/-- The concrete mock-scorer input of the spec: `has_ip_address = 1`,
`url_length = 80`, every other feature 0. -/
def fIpLong : List (String × ℚ) :=
  featureNames.map fun n =>
    (n, if n = "has_ip_address" then 1 else if n = "url_length" then 80 else 0)

lemma newDomainStep_sev (age : Option Int) (s : EscState) :
    s.1.sev ≤ (newDomainStep age s).1.sev := by
  obtain ⟨v, conf, tf⟩ := s
  cases age with
  | none => exact Nat.le_refl _
  | some a =>
    by_cases hlt : a < 30
    · cases v <;> simp [newDomainStep, hlt, Verdict.sev]
    · simp [newDomainStep, hlt]

lemma newDomainStep_absorbs (age : Option Int) (s : EscState)
    (h : s.1 = Verdict.malicious) : (newDomainStep age s).1 = Verdict.malicious := by
  obtain ⟨v, conf, tf⟩ := s
  have hv : v = Verdict.malicious := h
  subst hv
  cases age with
  | none => rfl
  | some a =>
    by_cases hlt : a < 30
    · simp [newDomainStep, hlt]
    · simp [newDomainStep, hlt]

lemma sev_le_two (v : Verdict) : v.sev ≤ 2 := by cases v <;> simp [Verdict.sev]

lemma brandStep_sev (brand : Option String) (s : EscState) :
    s.1.sev ≤ (brandStep brand s).1.sev := by
  cases brand with
  | none => exact le_refl _
  | some b => exact sev_le_two s.1

lemma brandStep_absorbs (brand : Option String) (s : EscState)
    (h : s.1 = Verdict.malicious) : (brandStep brand s).1 = Verdict.malicious := by
  cases brand with
  | none => exact h
  | some b => rfl

lemma dnsStep_sev (dnsValid : Option Bool) (s : EscState) :
    s.1.sev ≤ (dnsStep dnsValid s).1.sev := by
  unfold dnsStep
  split
  · exact sev_le_two s.1
  · exact le_refl _

lemma dnsStep_absorbs (dnsValid : Option Bool) (s : EscState)
    (h : s.1 = Verdict.malicious) : (dnsStep dnsValid s).1 = Verdict.malicious := by
  unfold dnsStep
  split <;> simp [h]

lemma contentStep_sev (avail : Bool) (score : Nat) (s : EscState) :
    s.1.sev ≤ (contentStep avail score s).1.sev := by
  unfold contentStep
  split
  · next hcond =>
    split
    · split
      · exact sev_le_two s.1
      · cases hv : s.1 <;> simp_all [Verdict.sev]
    · exact le_refl _
  · exact le_refl _

lemma contentStep_absorbs (avail : Bool) (score : Nat) (s : EscState)
    (h : s.1 = Verdict.malicious) : (contentStep avail score s).1 = Verdict.malicious := by
  unfold contentStep
  split
  · next hcond => exact absurd h hcond.2
  · exact h

/-- C1: for every classification that reaches the heuristic escalation
pass, the verdict severity (benign < suspicious < malicious) is
non-decreasing across the four escalation steps — new-domain, brand
impersonation, invalid DNS, content analysis — and once the verdict is
malicious at any point of the pass, every later step keeps it malicious
(malicious is absorbing). -/
theorem c1_escalation_monotone (age : Option Int) (brand : Option String)
    (dnsValid : Option Bool) (contentAvail : Bool) (contentScore : Nat) (s : EscState) :
    s.1.sev ≤ (newDomainStep age s).1.sev ∧
    (newDomainStep age s).1.sev ≤ (brandStep brand (newDomainStep age s)).1.sev ∧
    (brandStep brand (newDomainStep age s)).1.sev ≤
      (dnsStep dnsValid (brandStep brand (newDomainStep age s))).1.sev ∧
    (dnsStep dnsValid (brandStep brand (newDomainStep age s))).1.sev ≤
      (escalationPass age brand dnsValid contentAvail contentScore s).1.sev ∧
    (s.1 = Verdict.malicious →
      (escalationPass age brand dnsValid contentAvail contentScore s).1 = Verdict.malicious) ∧
    ((newDomainStep age s).1 = Verdict.malicious →
      (escalationPass age brand dnsValid contentAvail contentScore s).1 = Verdict.malicious) ∧
    ((brandStep brand (newDomainStep age s)).1 = Verdict.malicious →
      (escalationPass age brand dnsValid contentAvail contentScore s).1 = Verdict.malicious) ∧
    ((dnsStep dnsValid (brandStep brand (newDomainStep age s))).1 = Verdict.malicious →
      (escalationPass age brand dnsValid contentAvail contentScore s).1 = Verdict.malicious) := by
  refine ⟨newDomainStep_sev age s, brandStep_sev brand _, dnsStep_sev dnsValid _,
    contentStep_sev contentAvail contentScore _, ?_, ?_, ?_, ?_⟩ <;> intro h
  · exact contentStep_absorbs _ _ _ (dnsStep_absorbs _ _ (brandStep_absorbs _ _
      (newDomainStep_absorbs _ _ h)))
  · exact contentStep_absorbs _ _ _ (dnsStep_absorbs _ _ (brandStep_absorbs _ _ h))
  · exact contentStep_absorbs _ _ _ (dnsStep_absorbs _ _ h)
  · exact contentStep_absorbs _ _ _ h

/-- Witness for C1 at a concrete state: a prior malicious verdict survives
a full escalation pass with a young domain, invalid DNS and content
score 1. -/
theorem c1_escalation_monotone_witness :
    (escalationPass (some 10) none (some false) true 1
      (Verdict.malicious, 1, [])).1 = Verdict.malicious :=
  (c1_escalation_monotone (some 10) none (some false) true 1
    (Verdict.malicious, 1, [])).2.2.2.2.1 rfl

/-- C3: whenever the brand-impersonation diagnostic reports a brand, the
escalation step forces verdict malicious with confidence 0.95 whatever
the prior verdict and confidence were, prepending an explanation named
`impersonates_<brand>` with value 1.0 and contribution 0.9; consequently
the whole escalation pass ends malicious. -/
theorem c3_brand_forces_malicious (v : Verdict) (conf : ℚ) (tf : List Contribution)
    (b : String) (age : Option Int) (dnsValid : Option Bool)
    (contentAvail : Bool) (contentScore : Nat) :
    brandStep (some b) (v, conf, tf) =
      (Verdict.malicious, 0.95, ⟨"impersonates_" ++ b, 1, 0.9⟩ :: tf) ∧
    (escalationPass age (some b) dnsValid contentAvail contentScore (v, conf, tf)).1 =
      Verdict.malicious := by
  refine ⟨rfl, ?_⟩
  have hb : (brandStep (some b) (newDomainStep age (v, conf, tf))).1 = Verdict.malicious := rfl
  exact contentStep_absorbs _ _ _ (dnsStep_absorbs _ _ hb)

/-- C4: the DNS check returns true when the A record resolves, and when
the A record fails but MX resolves; BUT a network failure of the lookup
mechanism during resolution is swallowed by the inner bare `except:`
clauses and produces `False`, not the documented default `True` — only a
failure outside the resolve calls (URL parsing) reaches the
`return True` handler.  This contradicts the claim (and the code's own
comment). -/
theorem c4_dns_check :
    (∀ (url : String) (resolveMX : Except DnsLookupError Unit),
      check_dns (Except.ok ()) resolveMX url = true) ∧
    (∀ (url : String) (eA : DnsLookupError),
      check_dns (Except.error eA) (Except.ok ()) url = true) ∧
    check_dns (Except.error DnsLookupError.networkFailure)
      (Except.error DnsLookupError.networkFailure) "http://example.com" = false := by
  refine ⟨?_, ?_, by decide⟩ <;>
    · intro url x
      unfold check_dns
      split <;> rfl

/-- C5: the mock scorer risk formula, its three verdict branches with
their exact confidences (including the benign-branch jitter bounds), and
the concrete input `has_ip_address = 1`, `url_length = 80`, all other
features 0, which scores risk 4 and confidence 0.99. -/
theorem c5_mock_scorer :
    (∀ (f : List (String × ℚ)) (ai : AdditionalInfo) (r : ℚ), 0 ≤ r → r < 1 →
      (mock_score f =
        2 * (if lookupFeature f "suspicious_keywords" > 0 then 1 else 0) +
        1 * (if lookupFeature f "is_shortened" > 0 then 1 else 0) +
        3 * (if lookupFeature f "has_ip_address" > 0 then 1 else 0) +
        1 * (if lookupFeature f "url_length" > 75 then 1 else 0) +
        1 * (if lookupFeature f "domain_dots" > 3 then 1 else 0)) ∧
      (2 ≤ mock_score f →
        (mock_predict f ai r).verdict = Verdict.malicious ∧
        (mock_predict f ai r).confidence = min (0.6 + (mock_score f : ℚ) * 0.1) 0.99) ∧
      (mock_score f = 1 →
        (mock_predict f ai r).verdict = Verdict.suspicious ∧
        (mock_predict f ai r).confidence = 0.65) ∧
      (mock_score f = 0 →
        (mock_predict f ai r).verdict = Verdict.benign ∧
        (mock_predict f ai r).confidence = 0.85 + r * 0.1 ∧
        0.85 ≤ (mock_predict f ai r).confidence ∧
        (mock_predict f ai r).confidence < 0.95)) ∧
    mock_score fIpLong = 4 ∧
    (mock_predict fIpLong {} 0).verdict = Verdict.malicious ∧
    (mock_predict fIpLong {} 0).confidence = 0.99 := by
  have hconf : (mock_predict fIpLong {} 0).confidence = 0.99 := by
    show (mock_verdict_confidence (mock_score fIpLong) 0).2 = 0.99
    rw [show mock_score fIpLong = 4 from by decide]
    norm_num [mock_verdict_confidence, min_def]
  refine ⟨?_, by decide, by decide, hconf⟩
  intro f ai r h0 h1
  refine ⟨by unfold mock_score; split_ifs <;> norm_num, ?_, ?_, ?_⟩
  · intro h2
    constructor
    · show (mock_verdict_confidence (mock_score f) r).1 = Verdict.malicious
      unfold mock_verdict_confidence
      rw [if_pos h2]
    · show (mock_verdict_confidence (mock_score f) r).2 = _
      unfold mock_verdict_confidence
      rw [if_pos h2]
  · intro h2
    have hvc : mock_verdict_confidence (mock_score f) r = (Verdict.suspicious, 0.65) := by
      rw [h2]; rfl
    constructor
    · show (mock_verdict_confidence (mock_score f) r).1 = Verdict.suspicious
      rw [hvc]
    · show (mock_verdict_confidence (mock_score f) r).2 = 0.65
      rw [hvc]
  · intro h2
    have hvc : mock_verdict_confidence (mock_score f) r = (Verdict.benign, 0.85 + r * 0.1) := by
      rw [h2]; rfl
    have hr : (0 : ℚ) ≤ r * 0.1 := mul_nonneg h0 (by norm_num)
    have hr2 : r * 0.1 < 1 * 0.1 := by
      exact mul_lt_mul_of_pos_right h1 (by norm_num)
    refine ⟨?_, ?_, ?_, ?_⟩
    · show (mock_verdict_confidence (mock_score f) r).1 = Verdict.benign
      rw [hvc]
    · show (mock_verdict_confidence (mock_score f) r).2 = 0.85 + r * 0.1
      rw [hvc]
    · show (0.85 : ℚ) ≤ (mock_verdict_confidence (mock_score f) r).2
      rw [hvc]
      show (0.85 : ℚ) ≤ 0.85 + r * 0.1
      linarith
    · show (mock_verdict_confidence (mock_score f) r).2 < 0.95
      rw [hvc]
      show (0.85 : ℚ) + r * 0.1 < 0.95
      linarith

/-- Witness for C5 at the concrete risk-4 input with jitter 0. -/
theorem c5_mock_scorer_witness :
    (mock_predict fIpLong {} 0).verdict = Verdict.malicious ∧
    (mock_predict fIpLong {} 0).confidence =
      min (0.6 + (mock_score fIpLong : ℚ) * 0.1) 0.99 :=
  (c5_mock_scorer.1 fIpLong {} 0 (by norm_num) (by norm_num)).2.1 (by decide)

/-- C6: the whitelist check is true exactly when the lowercased domain
equals a trusted entry or ends with a dot followed by a trusted entry;
concretely, `accounts.google.com` is trusted and `notgoogle.com` is not
(no bare substring matching). -/
theorem c6_whitelist_matching :
    (∀ d : String, isTrusted d = true ↔
      (lowerStr d ∈ WHITELIST ∨
        ∃ t ∈ WHITELIST, ("." ++ t).data <:+ (lowerStr d).data)) ∧
    isTrusted "accounts.google.com" = true ∧
    isTrusted "notgoogle.com" = false := by
  refine ⟨?_, by decide, by decide⟩
  intro d
  unfold isTrusted
  simp only [Bool.or_eq_true, List.any_eq_true, List.isSuffixOf_iff_suffix]
  constructor
  · rintro (hc | hex)
    · exact Or.inl (List.elem_iff.1 hc)
    · exact Or.inr hex
  · rintro (hm | hex)
    · exact Or.inl (List.elem_iff.2 hm)
    · exact Or.inr hex

/-- Keys of the extracted feature vector are always the canonical 25
names, in canonical order (helper shared by several claims). -/
lemma extract_all_keys (ent : String → ℚ) (url : String) (enr : Option Enrichment) :
    (extract_all ent url enr).map Prod.fst = featureNames := by
  unfold extract_all
  cases hu : urlparse url with
  | error e =>
    exact (by decide :
      (featureNames.map fun n => (n, (0 : ℚ))).map Prod.fst = featureNames)
  | ok p =>
    cases enr with
    | none => rfl
    | some e => rfl

/-- C2: feature extraction is a total function (the embedding of
`extract_all` needs no partiality and every `ℚ` value is finite); for
every string and every optional enrichment record it returns exactly the
25 canonical feature names, and whenever `urlparse` raises it returns
the all-zero vector. -/
theorem c2_extract_total (ent : String → ℚ) (url : String) (enr : Option Enrichment) :
    (extract_all ent url enr).map Prod.fst = featureNames ∧
    ((urlparse url).toOption = none →
      extract_all ent url enr = featureNames.map fun n => (n, (0 : ℚ))) := by
  refine ⟨extract_all_keys ent url enr, ?_⟩
  intro h
  unfold extract_all
  cases hu : urlparse url with
  | error e => rfl
  | ok p => rw [hu] at h; simp [Except.toOption] at h

/-- Witness for C2 at a URL that makes Python `urlparse` raise
`ValueError("Invalid IPv6 URL")`. -/
theorem c2_extract_total_witness :
    extract_all entZero "http://[::1" none =
      featureNames.map fun n => (n, (0 : ℚ)) :=
  (c2_extract_total entZero "http://[::1" none).2 (by decide)

/-- Counterexample to C9: with no enrichment record supplied at all,
`extract_all` defaults `as_reputation_score` to 0, not 0.5 — the
`else` branch of `extract_all` zeroes all fifteen enriched features
without consulting the per-field defaults. -/
theorem c9_as_reputation_zero_without_enrichment :
    (extract_all entZero "http://example.com" none).lookup "as_reputation_score" =
      some 0 ∧ (0 : ℚ) ≠ 0.5 :=
  ⟨by decide, by norm_num⟩

/-- C9 (amended): when no enrichment record is supplied, all fifteen
enriched features — `as_reputation_score` included — default to 0.0; the
0.5 default for `as_reputation_score` applies only when an enrichment
record is present (here: one whose `geo` section is absent) on a URL
that parses. -/
theorem c9_enriched_defaults :
    (∀ (ent : String → ℚ) (url : String),
      (extract_all ent url none).drop 10 =
        (featureNames.drop 10).map fun n => (n, (0 : ℚ))) ∧
    (∀ (ent : String → ℚ) (url : String) (p : ParsedUrl) (e : Enrichment),
      urlparse url = Except.ok p → e.geo = none →
      (extract_all ent url (some e)).lookup "as_reputation_score" = some 0.5) := by
  constructor
  · intro ent url
    unfold extract_all
    cases hu : urlparse url with
    | error msg =>
      exact (by decide : (featureNames.map fun n => (n, (0 : ℚ))).drop 10 =
        (featureNames.drop 10).map fun n => (n, (0 : ℚ)))
    | ok p => rfl
  · intro ent url p e hu hg
    unfold extract_all
    rw [hu]
    simp [extract_lexical, extract_enriched, List.lookup, getField, hg]

/-- Witness for C9 (amended) at a parsing URL and an empty enrichment
record. -/
theorem c9_enriched_defaults_witness :
    (extract_all entZero "http://example.com" (some {})).lookup
      "as_reputation_score" = some 0.5 :=
  c9_enriched_defaults.2 entZero "http://example.com"
    ⟨"http", "example.com", "", "", ""⟩ {} (by decide) rfl

/-- The main (non-whitelisted) prediction path always reports the
extracted feature vector as `all_features` (helper). -/
lemma predictMain_all_features (o : Oracles) (ent : String → ℚ) (url : String)
    (enr : Option Enrichment) :
    (predictMain o ent url enr).all_features = extract_all ent url enr := by
  by_cases hml : o.mlLoaded = true ∧ o.mlRaises = false
  · simp [predictMain, mock_predict, hml]
  · simp [predictMain, mock_predict, hml]

/-- Outside the whitelist short circuit, `predict` is the main path
(helper). -/
lemma predict_eq_main (o : Oracles) (ent : String → ℚ) (url : String)
    (enr : Option Enrichment) (hw : whitelistShortCircuit url = false) :
    predict o ent url enr = predictMain o ent url enr := by
  unfold predict
  unfold whitelistShortCircuit at hw
  cases hu : urlparse url with
  | error e => rfl
  | ok p =>
    rw [hu] at hw
    have hw2 : isTrusted p.netloc = false := hw
    exact if_neg (by simp [hw2])

/-- Counterexample to C10: the whitelist short circuit returns an EMPTY
`all_features` dictionary, so its raw features are not the canonical
25-name vector. -/
theorem c10_whitelist_raw_features_empty :
    (predict sampleOracles entZero "https://www.google.com" none).all_features.map
      Prod.fst ≠ featureNames := by
  decide

/-- C10 (amended): every prediction that does NOT take the whitelist
short circuit carries raw features with exactly the 25 canonical names
in canonical order; the whitelist short circuit instead returns an empty
feature dictionary. -/
theorem c10_raw_features_canonical :
    ∀ (o : Oracles) (ent : String → ℚ) (url : String) (enr : Option Enrichment),
      whitelistShortCircuit url = false →
      (predict o ent url enr).all_features.map Prod.fst = featureNames := by
  intro o ent url enr h
  rw [predict_eq_main o ent url enr h, predictMain_all_features, extract_all_keys]

/-- Witness for C10 (amended) at a non-whitelisted URL. -/
theorem c10_raw_features_canonical_witness :
    (predict sampleOracles entZero "http://g0ogle.com" none).all_features.map
      Prod.fst = featureNames :=
  c10_raw_features_canonical sampleOracles entZero "http://g0ogle.com" none (by decide)

lemma scanBrands_characterization (d : String) (l : List (String × List String))
    (hk : ∀ be ∈ l, d ∉ be.2 → containsSub be.1.data d.data = false) :
    (∀ b, scanBrands d l = some b →
      ∃ legs, (b, legs) ∈ l ∧ d ∉ legs ∧
        ∃ leg ∈ legs, typoMatch (firstLabel d) (firstLabel leg)) ∧
    ((∃ be ∈ l, d ∉ be.2 ∧ ∃ leg ∈ be.2, typoMatch (firstLabel d) (firstLabel leg)) →
      (scanBrands d l).isSome = true) := by
  induction l with
  | nil =>
    constructor
    · intro b hb
      simp [scanBrands] at hb
    · rintro ⟨be, hbe, _⟩
      simp at hbe
  | cons hd tl ih =>
    obtain ⟨brand, legs⟩ := hd
    have hkhd := hk (brand, legs) (List.mem_cons_self _ _)
    have hktl : ∀ be ∈ tl, d ∉ be.2 → containsSub be.1.data d.data = false :=
      fun be hbe => hk be (List.mem_cons_of_mem _ hbe)
    have ihtl := ih hktl
    by_cases h1 : d ∈ legs
    · have hscan : scanBrands d ((brand, legs) :: tl) = scanBrands d tl := by
        simp [scanBrands, h1]
      rw [hscan]
      constructor
      · intro b hb
        obtain ⟨legs2, hmem, hrest⟩ := ihtl.1 b hb
        exact ⟨legs2, List.mem_cons_of_mem _ hmem, hrest⟩
      · rintro ⟨be, hbe, hnot, hex⟩
        rcases List.mem_cons.1 hbe with heq | htl
        · rw [heq] at hnot
          exact absurd h1 hnot
        · exact ihtl.2 ⟨be, htl, hnot, hex⟩
    · have hcont : containsSub brand.data d.data = false := hkhd h1
      by_cases h3 : ∃ leg ∈ legs, typoMatch (firstLabel d) (firstLabel leg)
      · have hscan : scanBrands d ((brand, legs) :: tl) = some brand := by
          simp [scanBrands, h1, hcont, h3]
        rw [hscan]
        constructor
        · intro b hb
          have hbb : brand = b := by injection hb
          subst hbb
          exact ⟨legs, List.mem_cons_self _ _, h1, h3⟩
        · intro _
          rfl
      · have hscan : scanBrands d ((brand, legs) :: tl) = scanBrands d tl := by
          simp [scanBrands, h1, hcont, h3]
        rw [hscan]
        constructor
        · intro b hb
          obtain ⟨legs2, hmem, hrest⟩ := ihtl.1 b hb
          exact ⟨legs2, List.mem_cons_of_mem _ hmem, hrest⟩
        · rintro ⟨be, hbe, hnot, hex⟩
          rcases List.mem_cons.1 hbe with heq | htl
          · rw [heq] at hex
            exact absurd hex h3
          · exact ihtl.2 ⟨be, htl, hnot, hex⟩

/-- C7: for a candidate that is neither whitelisted nor flagged by the
keyword-containment rule, the detector flags some brand exactly when some
brand has a legitimate domain whose first DNS label is within edit
distance 1..2 of the candidate's first label and the candidate's first
label is longer than 4 characters; any flagged brand satisfies that
condition for its own legitimate domains.  Concretely `g0ogle.com` is
flagged as `google` (distance 1, label length 6) and `goooooogle.com` is
not flagged (distance 4 to `google`). -/
theorem c7_typosquatting_rule :
    (∀ domain : String,
      stripWWW (lowerStr domain) ∉ WHITELIST →
      (∀ be ∈ TARGET_BRANDS, stripWWW (lowerStr domain) ∉ be.2 →
        containsSub be.1.data (stripWWW (lowerStr domain)).data = false) →
      ((∀ b, check_brand_impersonation domain = some b →
        ∃ legs, (b, legs) ∈ TARGET_BRANDS ∧ stripWWW (lowerStr domain) ∉ legs ∧
          ∃ leg ∈ legs,
            typoMatch (firstLabel (stripWWW (lowerStr domain))) (firstLabel leg)) ∧
      ((∃ be ∈ TARGET_BRANDS, stripWWW (lowerStr domain) ∉ be.2 ∧
          ∃ leg ∈ be.2,
            typoMatch (firstLabel (stripWWW (lowerStr domain))) (firstLabel leg)) →
        (check_brand_impersonation domain).isSome = true))) ∧
    check_brand_impersonation "g0ogle.com" = some "google" ∧
    check_brand_impersonation "goooooogle.com" = none := by
  refine ⟨?_, by decide, by decide⟩
  intro domain hwl hk
  have heq : check_brand_impersonation domain =
      scanBrands (stripWWW (lowerStr domain)) TARGET_BRANDS := if_neg hwl
  rw [heq]
  exact scanBrands_characterization _ _ hk

/-- Witness for C7 at the candidate `g0ogle.com` (not whitelisted, no
brand keyword contained). -/
theorem c7_typosquatting_rule_witness :
    (∀ b, check_brand_impersonation "g0ogle.com" = some b →
      ∃ legs, (b, legs) ∈ TARGET_BRANDS ∧
        stripWWW (lowerStr "g0ogle.com") ∉ legs ∧
        ∃ leg ∈ legs,
          typoMatch (firstLabel (stripWWW (lowerStr "g0ogle.com"))) (firstLabel leg)) ∧
    ((∃ be ∈ TARGET_BRANDS, stripWWW (lowerStr "g0ogle.com") ∉ be.2 ∧
        ∃ leg ∈ be.2,
          typoMatch (firstLabel (stripWWW (lowerStr "g0ogle.com"))) (firstLabel leg)) →
      (check_brand_impersonation "g0ogle.com").isSome = true) :=
  c7_typosquatting_rule.1 "g0ogle.com" (by decide) (by decide)

set_option maxRecDepth 16000 in
/-- Every listed legitimate brand domain, run through the whitelist test
and the brand scan, comes out unflagged (finite check; helper for C8). -/
lemma brandCore_none_on_listed :
    ∀ x ∈ (TARGET_BRANDS.map Prod.snd).flatten,
      (if x ∈ WHITELIST then none else scanBrands x TARGET_BRANDS) = none := by
  decide

/-- C8: a domain that, after the `www.` strip (and the lowercasing the
code performs first), is itself a legitimate domain of some brand, or is
whitelisted, is never flagged by the brand-impersonation check. -/
theorem c8_legit_or_whitelisted_never_flagged :
    ∀ domain : String,
      ((∃ be ∈ TARGET_BRANDS, stripWWW (lowerStr domain) ∈ be.2) ∨
        stripWWW (lowerStr domain) ∈ WHITELIST) →
      check_brand_impersonation domain = none := by
  intro domain h
  have hcore : check_brand_impersonation domain =
      (if stripWWW (lowerStr domain) ∈ WHITELIST then none
      else scanBrands (stripWWW (lowerStr domain)) TARGET_BRANDS) := rfl
  rcases h with ⟨be, hbe, hmem⟩ | hwl
  · rw [hcore]
    by_cases hw : stripWWW (lowerStr domain) ∈ WHITELIST
    · rw [if_pos hw]
    · have hx : stripWWW (lowerStr domain) ∈ (TARGET_BRANDS.map Prod.snd).flatten :=
        List.mem_flatten.2 ⟨be.2, List.mem_map_of_mem Prod.snd hbe, hmem⟩
      exact brandCore_none_on_listed _ hx
  · rw [hcore, if_pos hwl]

/-- Witness for C8 at `www.gmail.com`, which strips to the legitimate
google domain `gmail.com` (itself not in the whitelist). -/
theorem c8_legit_or_whitelisted_never_flagged_witness :
    check_brand_impersonation "www.gmail.com" = none :=
  c8_legit_or_whitelisted_never_flagged "www.gmail.com" (Or.inl (by decide))

end UrlPhishing
